import Mathlib

/-
  Verification of the pi-gles2-demo-triangle program (src/triangle.c).

  The program is a linear sequence of EGL/dispmanx/GLES2 calls followed by
  an infinite render loop.  We model it as a trace semantics: every
  graphics or stdio call the program issues is recorded as a `Call` event;
  results of the external libraries are supplied by an environment `Env`;
  the GL error flag (read-and-cleared by glGetError inside the check()
  macro) is threaded explicitly; a failed assert aborts the run.
-/

namespace Triangle

/-- GLES2 / EGL numeric constants used by triangle.c (values from gl2.h / egl.h). -/
def GL_COLOR_BUFFER_BIT : Nat := 16384

def GL_TRIANGLES : Nat := 4

def GL_FLOAT : Nat := 5126

def GL_ARRAY_BUFFER : Nat := 34962

def GL_STATIC_DRAW : Nat := 35044

def GL_VERTEX_SHADER : Nat := 35633

def GL_FRAGMENT_SHADER : Nat := 35632

/-- One observable call issued by the program: each constructor corresponds to
    one call site in triangle.c, carrying the arguments relevant to the spec.
    `glGetErrorCheck` is the check() macro, i.e. assert(glGetError() == 0). -/
inductive Call where
  | bcmHostInit
  | eglGetDisplay
  | eglInitialize
  | eglChooseConfig
  | eglBindAPI
  | eglCreateContext
  | graphicsGetDisplaySize
  | dispmanxDisplayOpen
  | dispmanxUpdateStart
  | dispmanxElementAdd
  | dispmanxUpdateSubmitSync
  | eglCreateWindowSurface
  | eglMakeCurrent
  | glClearColor (r g b a : Int)
  | glClear (mask : Nat)
  | glCreateShader (kind : Nat)
  | glShaderSource (shader : Nat)
  | glCompileShader (shader : Nat)
  | showlog (shader : Nat)
  | showprogramlog (program : Nat)
  | glCreateProgram
  | glAttachShader (program shader : Nat)
  | glLinkProgram (program : Nat)
  | glDeleteShader (shader : Nat)
  | glGetAttribLocation (program : Nat)
  | glGenBuffers
  | glBindBuffer (target buf : Nat)
  | glBufferData (target : Nat) (data : List Int) (usage : Nat)
  | glViewport (x y w h : Nat)
  | printfDelta (delta : Int)
  | glUseProgram (program : Nat)
  | glVertexAttribPointer (index size ty normalized stride : Nat)
  | glEnableVertexAttribArray (index : Nat)
  | glDrawArrays (mode : Nat) (first : Nat) (count : Nat)
  | eglSwapBuffers
  | glGetErrorCheck
  | glDeleteProgram (program : Nat)
  | glDeleteBuffers
  deriving DecidableEq

/-- A wall-clock timestamp, as struct timeval (tv_sec, tv_usec). -/
structure Timeval where
  sec : Int
  usec : Int
  deriving DecidableEq

/-- The OPENGL_STATE_T record of triangle.c.  GLuint / uint32_t fields are
    modelled as Nat (stores reduce modulo 2^32 where the C performs a
    narrowing conversion); EGL handles as Nat with 0 the null sentinel
    (EGL_NO_DISPLAY / EGL_NO_CONTEXT / EGL_NO_SURFACE are all ((T)0)). -/
structure GLState where
  screen_width : Nat
  screen_height : Nat
  display : Nat
  surface : Nat
  context : Nat
  vshader : Nat
  fshader : Nat
  program : Nat
  attr_vertex : Nat
  vbo_triangle : Nat
  verbose : Nat
  deriving DecidableEq

/-- The zero state: the static OPENGL_STATE_T is zero-initialized, and main()
    additionally memsets it to 0 before any other step. -/
def initState : GLState :=
  { screen_width := 0, screen_height := 0, display := 0, surface := 0,
    context := 0, vshader := 0, fshader := 0, program := 0,
    attr_vertex := 0, vbo_triangle := 0, verbose := 0 }

/-- Dynamic execution record: the program state, the pending GL error flag
    (0 = GL_NO_ERROR; the GL error flag keeps the first error raised until
    glGetError reads and clears it) and the trace of calls issued so far. -/
structure Run where
  st : GLState
  err : Nat
  trace : List Call
  deriving DecidableEq

/-- Environment supplying the results of the external graphics stack:
    return values of each fallible call, the display size, the GL error code
    each call raises (0 = none), the wall clock, and the indeterminate
    initial contents of the uninitialized stack variable tv_last in main(). -/
structure Env where
  eglGetDisplay_ret : Nat
  eglInitialize_ret : Nat
  eglChooseConfig_ret : Nat
  eglBindAPI_ret : Nat
  eglCreateContext_ret : Nat
  graphics_get_display_size_ret : Int
  screenW : Nat
  screenH : Nat
  eglCreateWindowSurface_ret : Nat
  eglMakeCurrent_ret : Nat
  createShader_v_ret : Nat
  createShader_f_ret : Nat
  createProgram_ret : Nat
  getAttribLocation_ret : Int
  genBuffers_ret : Nat
  errOf : Call → Nat
  time : Nat → Timeval
  tv_last_init : Timeval

/-- Issue a call: record it on the trace; if the GL error flag is clear the
    call may raise the error the environment assigns to it (the GL error
    flag retains the first error until read). -/
def emit (env : Env) (c : Call) (r : Run) : Run :=
  { r with trace := r.trace ++ [c],
           err := if r.err = 0 then env.errOf c else r.err }

/-- Apply an assignment to the state record (a `state->field = ...` store). -/
def setSt (f : GLState → GLState) (r : Run) : Run :=
  { r with st := f r.st }

/-- An assert(cond): continue when the condition holds, abort otherwise. -/
def assertTrue (b : Bool) (r : Run) : Except Run Run :=
  if b then Except.ok r else Except.error r

/-- The check() macro: assert(glGetError() == 0).  glGetError returns the
    pending error flag and clears it; the assert aborts on a nonzero code. -/
def check (r : Run) : Except Run Run :=
  let e := r.err
  let r2 : Run := { r with trace := r.trace ++ [Call.glGetErrorCheck], err := 0 }
  if e = 0 then Except.ok r2 else Except.error r2

/-- Sequencing in the presence of aborts. -/
def bindR (x : Except Run Run) (f : Run → Except Run Run) : Except Run Run :=
  match x with
  | Except.error ra => Except.error ra
  | Except.ok r => f r

/-- The run reached by a possibly-aborted computation (aborts keep the run
    at the failed assertion). -/
def trOf (x : Except Run Run) : Run :=
  match x with
  | Except.error ra => ra
  | Except.ok r => r

/-- init_ogl (triangle.c lines 80-177): display/context bootstrap.
    Each `state->... =` store, assert and check() appears in source order.
    Note: graphics_get_display_size is followed by an assert only (no
    check()), and the four dispmanx calls have no per-call assertion; the
    only check after them is the one at line 162. -/
def init_ogl (env : Env) (r0 : Run) : Except Run Run :=
  let r := emit env Call.bcmHostInit r0
  let r := setSt (fun s => { s with display := env.eglGetDisplay_ret }) (emit env Call.eglGetDisplay r)
  bindR (assertTrue (r.st.display != 0) r) fun r =>
  bindR (check r) fun r =>
  let r := emit env Call.eglInitialize r
  bindR (assertTrue (env.eglInitialize_ret != 0) r) fun r =>
  bindR (check r) fun r =>
  let r := emit env Call.eglChooseConfig r
  bindR (assertTrue (env.eglChooseConfig_ret != 0) r) fun r =>
  bindR (check r) fun r =>
  let r := emit env Call.eglBindAPI r
  bindR (assertTrue (env.eglBindAPI_ret != 0) r) fun r =>
  bindR (check r) fun r =>
  let r := setSt (fun s => { s with context := env.eglCreateContext_ret }) (emit env Call.eglCreateContext r)
  bindR (assertTrue (r.st.context != 0) r) fun r =>
  bindR (check r) fun r =>
  let r := setSt (fun s => { s with screen_width := env.screenW, screen_height := env.screenH }) (emit env Call.graphicsGetDisplaySize r)
  bindR (assertTrue (decide (0 ≤ env.graphics_get_display_size_ret)) r) fun r =>
  let r := emit env Call.dispmanxDisplayOpen r
  let r := emit env Call.dispmanxUpdateStart r
  let r := emit env Call.dispmanxElementAdd r
  let r := emit env Call.dispmanxUpdateSubmitSync r
  bindR (check r) fun r =>
  let r := setSt (fun s => { s with surface := env.eglCreateWindowSurface_ret }) (emit env Call.eglCreateWindowSurface r)
  bindR (assertTrue (r.st.surface != 0) r) fun r =>
  bindR (check r) fun r =>
  let r := emit env Call.eglMakeCurrent r
  bindR (assertTrue (env.eglMakeCurrent_ret != 0) r) fun r =>
  bindR (check r) fun r =>
  let r := emit env (Call.glClearColor 0 0 0 1) r
  let r := emit env (Call.glClear GL_COLOR_BUFFER_BIT) r
  check r

/-- The literal triangle vertex array of init_scene (9 GLfloats; the values
    -1.0, 0.0, 1.0 are exactly representable, so Int models them exactly). -/
def triangle_vertex_data : List Int :=
  [-1, -1, 0, 1, -1, 0, 0, 1, 0]

/-- init_scene (triangle.c lines 193-249): shader compilation, program link,
    attribute lookup and vertex buffer upload, in source order.  The store
    state->attr_vertex = glGetAttribLocation(...) narrows the signed GLint
    result to the unsigned GLuint field, i.e. reduces it modulo 2^32.
    No assert guards the lookup result, and no check() follows the final
    glBindBuffer / glBufferData pair. -/
def init_scene (env : Env) (r0 : Run) : Except Run Run :=
  let r := setSt (fun s => { s with vshader := env.createShader_v_ret }) (emit env (Call.glCreateShader GL_VERTEX_SHADER) r0)
  let r := emit env (Call.glShaderSource r.st.vshader) r
  let r := emit env (Call.glCompileShader r.st.vshader) r
  bindR (check r) fun r =>
  let r := if r.st.verbose != 0 then emit env (Call.showlog r.st.vshader) r else r
  let r := setSt (fun s => { s with fshader := env.createShader_f_ret }) (emit env (Call.glCreateShader GL_FRAGMENT_SHADER) r)
  let r := emit env (Call.glShaderSource r.st.fshader) r
  let r := emit env (Call.glCompileShader r.st.fshader) r
  bindR (check r) fun r =>
  let r := if r.st.verbose != 0 then emit env (Call.showlog r.st.fshader) r else r
  let r := setSt (fun s => { s with program := env.createProgram_ret }) (emit env Call.glCreateProgram r)
  let r := emit env (Call.glAttachShader r.st.program r.st.vshader) r
  let r := emit env (Call.glAttachShader r.st.program r.st.fshader) r
  let r := emit env (Call.glLinkProgram r.st.program) r
  bindR (check r) fun r =>
  let r := if r.st.verbose != 0 then emit env (Call.showprogramlog r.st.program) r else r
  let r := emit env (Call.glDeleteShader r.st.vshader) r
  let r := emit env (Call.glDeleteShader r.st.fshader) r
  let r := setSt (fun s => { s with attr_vertex := (env.getAttribLocation_ret % (4294967296 : Int)).toNat }) (emit env (Call.glGetAttribLocation r.st.program) r)
  let r := setSt (fun s => { s with vbo_triangle := env.genBuffers_ret }) (emit env Call.glGenBuffers r)
  bindR (check r) fun r =>
  let r := emit env (Call.glBindBuffer GL_ARRAY_BUFFER r.st.vbo_triangle) r
  Except.ok (emit env (Call.glBufferData GL_ARRAY_BUFFER triangle_vertex_data GL_STATIC_DRAW) r)

/-- The elapsed-microseconds expression of main() line 313:
    (tv.tv_sec - tv_last.tv_sec) * 1e6 + tv.tv_usec - tv_last.tv_usec.
    The C computes this in double because of the 1e6 literal and converts
    the result to long; for timeval-range operands every intermediate value
    is below 2^53 in magnitude, so integer arithmetic models it exactly. -/
def elapsedMicros (tv tv_last : Timeval) : Int :=
  (tv.sec - tv_last.sec) * 1000000 + tv.usec - tv_last.usec

/-- render (triangle.c lines 265-273): print the delta, bind the program,
    describe and enable the vertex attribute, draw 3 vertices as triangles.
    No assert and no state store occurs here. -/
def render (env : Env) (delta : Int) (r0 : Run) : Run :=
  let r := emit env (Call.printfDelta delta) r0
  let r := emit env (Call.glUseProgram r.st.program) r
  let r := emit env (Call.glVertexAttribPointer r.st.attr_vertex 3 GL_FLOAT 0 12) r
  let r := emit env (Call.glEnableVertexAttribArray r.st.attr_vertex) r
  emit env (Call.glDrawArrays GL_TRIANGLES 0 3) r

/-- One body of the while(1) loop (lines 306-319): clear, gettimeofday,
    render with the elapsed delta, swap, check().  `k` is the iteration
    index (feeding the clock), `tv_last` the previous timestamp.  On
    success it returns the new tv_last (tv_last = tv, line 314). -/
def loopIter (env : Env) (k : Nat) (tv_last : Timeval) (r0 : Run) : Except Run (Timeval × Run) :=
  let r := emit env (Call.glClear GL_COLOR_BUFFER_BIT) r0
  let tv := env.time k
  let r := render env (elapsedMicros tv tv_last) r
  let r := emit env Call.eglSwapBuffers r
  match check r with
  | Except.error ra => Except.error ra
  | Except.ok r2 => Except.ok (tv, r2)

/-- The loop condition: the literal 1 of while(1). -/
def whileCond : Bool := true

/-- Result of running main up to a bounded number of loop iterations:
    either an assert aborted the process, or the loop is still running,
    or the (dead) code after the loop ran and returned an exit code. -/
inductive MainResult where
  | aborted (r : Run)
  | running (tv_last : Timeval) (r : Run)
  | exited (code : Int) (r : Run)

/-- The cleanup code after the loop (lines 322-323): delete the program and
    the vertex buffer.  Reachable only if the while(1) condition failed. -/
def cleanup (env : Env) (r : Run) : Run :=
  emit env Call.glDeleteBuffers (emit env (Call.glDeleteProgram r.st.program) r)

/-- The render loop (lines 306-319), unrolled up to `fuel` iterations:
    while (whileCond) { loopIter }; on loop exit, cleanup and return 0. -/
def loopRun (env : Env) : Nat → Nat → Timeval → Run → MainResult
  | _, 0, tvl, r => MainResult.running tvl r
  | k, fuel + 1, tvl, r =>
    if whileCond then
      match loopIter env k tvl r with
      | Except.error ra => MainResult.aborted ra
      | Except.ok (tv, r2) => loopRun env (k + 1) fuel tv r2
    else
      MainResult.exited 0 (cleanup env r)

/-- The zeroed run main() starts from (static zero-init plus memset). -/
def r0base : Run := { st := initState, err := 0, trace := [] }

/-- main (lines 288-327): memset the state to zero, init_ogl, init_scene,
    glViewport, then the render loop.  tv_last is an uninitialized stack
    variable; its initial contents are whatever garbage the environment
    supplies (env.tv_last_init). -/
def main_run (env : Env) (fuel : Nat) : MainResult :=
  match init_ogl env r0base with
  | Except.error ra => MainResult.aborted ra
  | Except.ok r1 =>
    match init_scene env r1 with
    | Except.error ra => MainResult.aborted ra
    | Except.ok r2 =>
      let r3 := emit env (Call.glViewport 0 0 r2.st.screen_width r2.st.screen_height) r2
      loopRun env 0 fuel env.tv_last_init r3

/-- The run a MainResult carries. -/
def MainResult.runOf : MainResult → Run
  | MainResult.aborted r => r
  | MainResult.running _ r => r
  | MainResult.exited _ r => r

/-- Did the run abort at a failed assertion. -/
def MainResult.isAborted : MainResult → Bool
  | MainResult.aborted _ => true
  | _ => false

/-- Did the run reach the return statement after the loop. -/
def MainResult.isExited : MainResult → Bool
  | MainResult.exited _ _ => true
  | _ => false

/-- A concrete healthy environment: every external call succeeds, no GL
    error is ever raised, the clock always reads (11 s, 100000 us), and the
    stack garbage in tv_last reads (10 s, 500000 us). -/
def envGood : Env :=
  { eglGetDisplay_ret := 1
    eglInitialize_ret := 1
    eglChooseConfig_ret := 1
    eglBindAPI_ret := 1
    eglCreateContext_ret := 2
    graphics_get_display_size_ret := 0
    screenW := 1920
    screenH := 1080
    eglCreateWindowSurface_ret := 3
    eglMakeCurrent_ret := 1
    createShader_v_ret := 10
    createShader_f_ret := 11
    createProgram_ret := 12
    getAttribLocation_ret := 0
    genBuffers_ret := 20
    errOf := fun _ => 0
    time := fun _ => { sec := 11, usec := 100000 }
    tv_last_init := { sec := 10, usec := 500000 } }

/-- envGood, except the attribute lookup fails with the -1 sentinel. -/
def envAttrFail : Env := { envGood with getAttribLocation_ret := -1 }

/-- envGood, except eglGetDisplay returns EGL_NO_DISPLAY. -/
def envNoDisplay : Env := { envGood with eglGetDisplay_ret := 0 }

/-- envGood, except eglInitialize returns EGL_FALSE. -/
def envNoInitEgl : Env := { envGood with eglInitialize_ret := 0 }

/-- envGood, except eglChooseConfig returns EGL_FALSE. -/
def envNoChoose : Env := { envGood with eglChooseConfig_ret := 0 }

/-- envGood, except eglBindAPI returns EGL_FALSE. -/
def envNoBind : Env := { envGood with eglBindAPI_ret := 0 }

/-- envGood, except eglCreateContext returns EGL_NO_CONTEXT. -/
def envNoContext : Env := { envGood with eglCreateContext_ret := 0 }

/-- envGood, except graphics_get_display_size fails with -1. -/
def envNoDispSize : Env := { envGood with graphics_get_display_size_ret := -1 }

/-- envGood, except eglCreateWindowSurface returns EGL_NO_SURFACE. -/
def envNoSurface : Env := { envGood with eglCreateWindowSurface_ret := 0 }

/-- envGood, except eglMakeCurrent returns EGL_FALSE. -/
def envNoMakeCurrent : Env := { envGood with eglMakeCurrent_ret := 0 }

/-- envGood, except compiling a shader raises GL_INVALID_OPERATION (1282). -/
def envCompileErr : Env :=
  { envGood with errOf := fun c => match c with
      | Call.glCompileShader _ => 1282
      | _ => 0 }

/-- envGood, except linking the program raises GL_INVALID_OPERATION. -/
def envLinkErr : Env :=
  { envGood with errOf := fun c => match c with
      | Call.glLinkProgram _ => 1282
      | _ => 0 }

/-- envGood, except the vertex-buffer upload raises GL_OUT_OF_MEMORY (1285). -/
def envBufferErr : Env :=
  { envGood with errOf := fun c => match c with
      | Call.glBufferData _ _ _ => 1285
      | _ => 0 }

/-- envGood, except the uninitialized tv_last garbage reads (0 s, 0 us)
    instead of (10 s, 500000 us); the wall clock is identical. -/
def envGarbage : Env := { envGood with tv_last_init := { sec := 0, usec := 0 } }

/-- Is this call one of the shader/program log prints (showlog /
    showprogramlog), i.e. output guarded by the verbose flag. -/
def isLogCall : Call → Bool
  | Call.showlog _ => true
  | Call.showprogramlog _ => true
  | _ => false

/-- Is this call one of the two cleanup calls after the render loop
    (glDeleteProgram / glDeleteBuffers, lines 322-323). -/
def isCleanupCall : Call → Bool
  | Call.glDeleteProgram _ => true
  | Call.glDeleteBuffers => true
  | _ => false

/-- Calls that setup never legitimately produces on a run started from the
    zero state: cleanup calls and (with verbose = 0) log prints. -/
def isForbidden (c : Call) : Bool := isCleanupCall c || isLogCall c

/-- Is this call a glBufferData upload. -/
def isBufferDataCall : Call → Bool
  | Call.glBufferData _ _ _ => true
  | _ => false

/-- Is this call a color-buffer clear, a draw call, or a buffer swap. -/
def isFrameMark : Call → Bool
  | Call.glClear _ => true
  | Call.glDrawArrays _ _ _ => true
  | Call.eglSwapBuffers => true
  | _ => false

/-- Marks for the shader-lifecycle ordering of init_scene: program link,
    shader deletion, attribute-location lookup. -/
def isLifecycleMark : Call → Bool
  | Call.glLinkProgram _ => true
  | Call.glDeleteShader _ => true
  | Call.glGetAttribLocation _ => true
  | _ => false

/-- Does this call create or destroy a graphics resource (context, surface,
    dispmanx element, shader, program or buffer object). -/
def isResourceOp : Call → Bool
  | Call.eglCreateContext => true
  | Call.eglCreateWindowSurface => true
  | Call.dispmanxElementAdd => true
  | Call.glCreateShader _ => true
  | Call.glCreateProgram => true
  | Call.glGenBuffers => true
  | Call.glDeleteShader _ => true
  | Call.glDeleteProgram _ => true
  | Call.glDeleteBuffers => true
  | _ => false

/-- Is this call the attribute-location lookup. -/
def isAttribLookup : Call → Bool
  | Call.glGetAttribLocation _ => true
  | _ => false

/-- The calls one loop iteration appends to the trace, in order (lines
    306-319 plus the body of render): clear, the printf of the elapsed
    delta, program bind, attribute setup, draw, swap, check. -/
def iterCalls (env : Env) (k : Nat) (tv_last : Timeval) (st : GLState) : List Call :=
  [Call.glClear GL_COLOR_BUFFER_BIT,
   Call.printfDelta (elapsedMicros (env.time k) tv_last),
   Call.glUseProgram st.program,
   Call.glVertexAttribPointer st.attr_vertex 3 GL_FLOAT 0 12,
   Call.glEnableVertexAttribArray st.attr_vertex,
   Call.glDrawArrays GL_TRIANGLES 0 3,
   Call.eglSwapBuffers,
   Call.glGetErrorCheck]

/-- The run after one loop iteration: same state, error flag cleared by the
    final check, trace extended by the calls of the iteration. -/
def iterRun (env : Env) (k : Nat) (tv_last : Timeval) (r : Run) : Run :=
  { r with trace := r.trace ++ iterCalls env k tv_last r.st, err := 0 }

/-- The run carried by a loop-iteration result, whether it aborted at the
    post-swap check or completed. -/
def iterRunOf (x : Except Run (Timeval × Run)) : Run :=
  match x with
  | Except.error ra => ra
  | Except.ok p => p.2

/-- The exact call list of a successful init_scene run with verbose = 0,
    in source order (lines 209-248). -/
def initSceneCalls (env : Env) : List Call :=
  [Call.glCreateShader GL_VERTEX_SHADER,
   Call.glShaderSource env.createShader_v_ret,
   Call.glCompileShader env.createShader_v_ret,
   Call.glGetErrorCheck,
   Call.glCreateShader GL_FRAGMENT_SHADER,
   Call.glShaderSource env.createShader_f_ret,
   Call.glCompileShader env.createShader_f_ret,
   Call.glGetErrorCheck,
   Call.glCreateProgram,
   Call.glAttachShader env.createProgram_ret env.createShader_v_ret,
   Call.glAttachShader env.createProgram_ret env.createShader_f_ret,
   Call.glLinkProgram env.createProgram_ret,
   Call.glGetErrorCheck,
   Call.glDeleteShader env.createShader_v_ret,
   Call.glDeleteShader env.createShader_f_ret,
   Call.glGetAttribLocation env.createProgram_ret,
   Call.glGenBuffers,
   Call.glGetErrorCheck,
   Call.glBindBuffer GL_ARRAY_BUFFER env.genBuffers_ret,
   Call.glBufferData GL_ARRAY_BUFFER triangle_vertex_data GL_STATIC_DRAW]

/-- Invariant carried through setup: the verbose flag has value `v` and the
    trace holds `n` forbidden (cleanup or log) calls. -/
def VInv (v n : Nat) (r : Run) : Prop :=
  r.st.verbose = v ∧ List.countP isForbidden r.trace = n

/-- check() leaves the same run whether or not it aborts: trace extended by
    the glGetError read, error flag cleared. -/
lemma trOf_check (r : Run) :
    trOf (check r) = { r with trace := r.trace ++ [Call.glGetErrorCheck], err := 0 } := by
  by_cases he : r.err = 0 <;> simp [check, he, trOf]

/-- Issuing a call preserves VInv when the call is not a forbidden one. -/
lemma vinv_emit {v n : Nat} {env : Env} {c : Call} {R : Run}
    (hc : isForbidden c = false) (hR : VInv v n R) : VInv v n (emit env c R) :=
  ⟨hR.1, by simp [emit, List.countP_append, hR.2, List.countP_cons, hc]⟩

/-- A state store preserves VInv when it does not touch the verbose field. -/
lemma vinv_setSt {v n : Nat} {f : GLState → GLState} {R : Run}
    (hf : ∀ s : GLState, (f s).verbose = s.verbose) (hR : VInv v n R) :
    VInv v n (setSt f R) := ⟨by simp [setSt, hf, hR.1], hR.2⟩

/-- The run left by a check() preserves VInv. -/
lemma vinv_checkRun {v n : Nat} {R : Run} (hR : VInv v n R) :
    VInv v n { R with trace := R.trace ++ [Call.glGetErrorCheck], err := 0 } :=
  ⟨hR.1, by simp [List.countP_append, hR.2, List.countP_cons, isForbidden,
                  isCleanupCall, isLogCall]⟩

/-- VInv propagates through an assert followed by a continuation. -/
lemma vinv_bindR_assert {v n : Nat} {b : Bool} {R : Run} {f : Run → Except Run Run}
    (hR : VInv v n R) (hf : VInv v n R → VInv v n (trOf (f R))) :
    VInv v n (trOf (bindR (assertTrue b R) f)) := by
  cases b
  · exact hR
  · exact hf hR

/-- VInv propagates through a check() followed by a continuation. -/
lemma vinv_bindR_check {v n : Nat} {R : Run} {f : Run → Except Run Run}
    (hR : VInv v n R)
    (hf : ∀ R2 : Run, VInv v n R2 → VInv v n (trOf (f R2))) :
    VInv v n (trOf (bindR (check R) f)) := by
  by_cases he : R.err = 0
  · simp only [check, he, if_pos, bindR]
    exact hf _ (vinv_checkRun hR)
  · simp only [check, he, if_neg, bindR, trOf]
    exact vinv_checkRun hR

/-- VInv propagates through a final trailing check(). -/
lemma vinv_check_end {v n : Nat} {R : Run} (hR : VInv v n R) :
    VInv v n (trOf (check R)) := by
  rw [trOf_check]
  exact vinv_checkRun hR

/-- Whatever init_ogl does (succeed or abort at any of its assertions), it
    never changes the verbose flag and never emits a cleanup or log call. -/
lemma init_ogl_vinv (env : Env) (r : Run) :
    VInv r.st.verbose (List.countP isForbidden r.trace) (trOf (init_ogl env r)) := by
  simp only [init_ogl]
  refine vinv_bindR_assert (vinv_setSt (fun s => rfl) (vinv_emit rfl (vinv_emit rfl ⟨rfl, rfl⟩))) ?_
  intro h1
  refine vinv_bindR_check h1 ?_
  intro R2 h2
  refine vinv_bindR_assert (vinv_emit rfl h2) ?_
  intro h3
  refine vinv_bindR_check h3 ?_
  intro R4 h4
  refine vinv_bindR_assert (vinv_emit rfl h4) ?_
  intro h5
  refine vinv_bindR_check h5 ?_
  intro R6 h6
  refine vinv_bindR_assert (vinv_emit rfl h6) ?_
  intro h7
  refine vinv_bindR_check h7 ?_
  intro R8 h8
  refine vinv_bindR_assert (vinv_setSt (fun s => rfl) (vinv_emit rfl h8)) ?_
  intro h9
  refine vinv_bindR_check h9 ?_
  intro R10 h10
  refine vinv_bindR_assert (vinv_setSt (fun s => rfl) (vinv_emit rfl h10)) ?_
  intro h11
  refine vinv_bindR_check (vinv_emit rfl (vinv_emit rfl (vinv_emit rfl (vinv_emit rfl h11)))) ?_
  intro R12 h12
  refine vinv_bindR_assert (vinv_setSt (fun s => rfl) (vinv_emit rfl h12)) ?_
  intro h13
  refine vinv_bindR_check h13 ?_
  intro R14 h14
  refine vinv_bindR_assert (vinv_emit rfl h14) ?_
  intro h15
  refine vinv_bindR_check h15 ?_
  intro R16 h16
  exact vinv_check_end (vinv_emit rfl (vinv_emit rfl h16))

/-- Whatever init_scene does when entered with verbose = 0 (succeed or abort
    at any of its checks), verbose stays 0 and no cleanup or log call is
    emitted (the three verbose-guarded log prints are skipped). -/
lemma init_scene_vinv (env : Env) (r : Run) (hv : r.st.verbose = 0) :
    VInv 0 (List.countP isForbidden r.trace) (trOf (init_scene env r)) := by
  simp only [init_scene]
  have h0 : VInv 0 (List.countP isForbidden r.trace) r := ⟨hv, rfl⟩
  refine vinv_bindR_check
    (vinv_emit rfl (vinv_emit rfl (vinv_setSt (fun s => rfl) (vinv_emit rfl h0)))) ?_
  intro R2 h2
  simp only [h2.1, bne_self_eq_false, Bool.false_eq_true, if_false]
  refine vinv_bindR_check
    (vinv_emit rfl (vinv_emit rfl (vinv_setSt (fun s => rfl) (vinv_emit rfl h2)))) ?_
  intro R4 h4
  simp only [h4.1, bne_self_eq_false, Bool.false_eq_true, if_false]
  refine vinv_bindR_check
    (vinv_emit rfl (vinv_emit rfl (vinv_emit rfl (vinv_setSt (fun s => rfl) (vinv_emit rfl h4))))) ?_
  intro R6 h6
  simp only [h6.1, bne_self_eq_false, Bool.false_eq_true, if_false]
  refine vinv_bindR_check
    (vinv_setSt (fun s => rfl) (vinv_emit rfl (vinv_setSt (fun s => rfl)
      (vinv_emit rfl (vinv_emit rfl (vinv_emit rfl h6)))))) ?_
  intro R8 h8
  exact vinv_emit rfl (vinv_emit rfl h8)

/-- Inversion: a successful sequencing means the first part succeeded. -/
lemma bindR_ok {x : Except Run Run} {f : Run → Except Run Run} {r1 : Run}
    (h : bindR x f = Except.ok r1) : ∃ rm, x = Except.ok rm ∧ f rm = Except.ok r1 := by
  cases x with
  | error ra => simp [bindR] at h
  | ok rm => exact ⟨rm, rfl, h⟩

/-- Inversion: a successful check() means the error flag was clear, and the
    continuation saw the trace extended by the glGetError read. -/
lemma check_ok {r rm : Run} (h : check r = Except.ok rm) :
    r.err = 0 ∧ rm = { r with trace := r.trace ++ [Call.glGetErrorCheck], err := 0 } := by
  by_cases he : r.err = 0
  · simp only [check, he, if_pos] at h
    rw [Except.ok.injEq] at h
    exact ⟨he, h.symm⟩
  · simp [check, he] at h

/-- A successful init_scene run entered with verbose = 0 appends exactly
    initSceneCalls to the trace, and its final state is the entry state with
    the five resource handles filled in; in particular attr_vertex holds the
    signed lookup result reduced modulo 2^32. -/
lemma init_scene_ok (env : Env) (r r1 : Run) (hv : r.st.verbose = 0)
    (hok : init_scene env r = Except.ok r1) :
    r1.trace = r.trace ++ initSceneCalls env ∧
    r1.st = { r.st with vshader := env.createShader_v_ret,
                        fshader := env.createShader_f_ret,
                        program := env.createProgram_ret,
                        attr_vertex := (env.getAttribLocation_ret % (4294967296 : Int)).toNat,
                        vbo_triangle := env.genBuffers_ret } := by
  simp only [init_scene, emit, setSt, hv, bne_self_eq_false, Bool.false_eq_true, if_false] at hok
  obtain ⟨rm1, hc1, hok⟩ := bindR_ok hok
  obtain ⟨he1, rfl⟩ := check_ok hc1
  simp only [emit, setSt, hv, bne_self_eq_false, Bool.false_eq_true, if_false] at hok
  obtain ⟨rm2, hc2, hok⟩ := bindR_ok hok
  obtain ⟨he2, rfl⟩ := check_ok hc2
  simp only [emit, setSt, hv, bne_self_eq_false, Bool.false_eq_true, if_false] at hok
  obtain ⟨rm3, hc3, hok⟩ := bindR_ok hok
  obtain ⟨he3, rfl⟩ := check_ok hc3
  simp only [emit, setSt, hv, bne_self_eq_false, Bool.false_eq_true, if_false] at hok
  obtain ⟨rm4, hc4, hok⟩ := bindR_ok hok
  obtain ⟨he4, rfl⟩ := check_ok hc4
  simp only [emit, setSt] at hok
  rw [Except.ok.injEq] at hok
  subst hok
  constructor
  · simp [initSceneCalls, List.append_assoc]
  · simp [hv]

/-- One loop iteration either aborts at its trailing check or succeeds
    returning the new timestamp; in both cases the run is iterRun: the state
    untouched, the trace extended by exactly the iteration's calls. -/
lemma loopIter_eq (env : Env) (k : Nat) (tvl : Timeval) (r : Run) :
    loopIter env k tvl r = Except.error (iterRun env k tvl r) ∨
    loopIter env k tvl r = Except.ok (env.time k, iterRun env k tvl r) := by
  simp only [loopIter, check]
  by_cases he : (emit env Call.eglSwapBuffers (render env (elapsedMicros (env.time k) tvl) (emit env (Call.glClear GL_COLOR_BUFFER_BIT) r))).err = 0
  · rw [if_pos he]
    right
    simp [iterRun, iterCalls, render, emit, List.append_assoc]
  · rw [if_neg he]
    left
    simp [iterRun, iterCalls, render, emit, List.append_assoc]

/-- The run of one loop iteration, abort or not, is exactly iterRun. -/
lemma loopIter_runOf (env : Env) (k : Nat) (tvl : Timeval) (r : Run) :
    iterRunOf (loopIter env k tvl r) = iterRun env k tvl r := by
  rcases loopIter_eq env k tvl r with h | h <;> simp [h, iterRunOf]

/-- The while(1) loop never reaches the code after it, for any unrolling. -/
lemma loopRun_not_exited (env : Env) :
    ∀ fuel k tvl r, MainResult.isExited (loopRun env k fuel tvl r) = false := by
  intro fuel
  induction fuel with
  | zero => intro k tvl r; rfl
  | succ n ih =>
    intro k tvl r
    unfold loopRun
    rcases loopIter_eq env k tvl r with h | h <;> simp [whileCond, h]
    · rfl
    · exact ih (k + 1) (env.time k) (iterRun env k tvl r)

/-- The loop never changes the state record, however many iterations run. -/
lemma loopRun_st (env : Env) :
    ∀ fuel k tvl r, (loopRun env k fuel tvl r).runOf.st = r.st := by
  intro fuel
  induction fuel with
  | zero => intro k tvl r; rfl
  | succ n ih =>
    intro k tvl r
    unfold loopRun
    rcases loopIter_eq env k tvl r with h | h <;> simp [whileCond, h]
    · rfl
    · exact ih (k + 1) (env.time k) (iterRun env k tvl r)

/-- Calls never issued by a loop iteration are never added by the loop. -/
lemma loopRun_countP (env : Env) (P : Call → Bool)
    (hP : ∀ k tvl st, List.countP P (iterCalls env k tvl st) = 0) :
    ∀ fuel k tvl r,
      List.countP P (loopRun env k fuel tvl r).runOf.trace = List.countP P r.trace := by
  intro fuel
  induction fuel with
  | zero => intro k tvl r; rfl
  | succ n ih =>
    intro k tvl r
    unfold loopRun
    rcases loopIter_eq env k tvl r with h | h <;> simp [whileCond, h]
    · simp [MainResult.runOf, iterRun, List.countP_append, hP]
    · rw [ih (k + 1) (env.time k) (iterRun env k tvl r)]
      simp [iterRun, List.countP_append, hP]

/-- A trace with no forbidden call has no cleanup call and no log call. -/
lemma countP_split_forbidden {l : List Call} (h : List.countP isForbidden l = 0) :
    List.countP isCleanupCall l = 0 ∧ List.countP isLogCall l = 0 := by
  rw [List.countP_eq_zero] at h
  constructor <;> rw [List.countP_eq_zero] <;> intro a ha <;>
    have hfa := h a ha <;> simp [isForbidden] at hfa <;> simp [hfa.1, hfa.2]

/-- Full-program invariant: on any environment and any unrolling, main never
    reaches the return path, keeps verbose = 0, prints no shader or program
    log, and never issues the post-loop cleanup calls. -/
lemma main_run_inv (env : Env) (fuel : Nat) :
    (main_run env fuel).runOf.st.verbose = 0 ∧
    List.countP isCleanupCall (main_run env fuel).runOf.trace = 0 ∧
    List.countP isLogCall (main_run env fuel).runOf.trace = 0 ∧
    MainResult.isExited (main_run env fuel) = false := by
  cases h1 : init_ogl env r0base with
  | error ra =>
    have hinv := init_ogl_vinv env r0base
    rw [h1] at hinv
    simp only [trOf] at hinv
    have hra : List.countP isForbidden ra.trace = 0 := by
      simpa [r0base] using hinv.2
    obtain ⟨hcl, hlg⟩ := countP_split_forbidden hra
    simp only [main_run, h1]
    exact ⟨by simpa [r0base, initState] using hinv.1, hcl, hlg, rfl⟩
  | ok r1 =>
    have hinv := init_ogl_vinv env r0base
    rw [h1] at hinv
    simp only [trOf] at hinv
    have hv1 : r1.st.verbose = 0 := by simpa [r0base, initState] using hinv.1
    have hf1 : List.countP isForbidden r1.trace = 0 := by simpa [r0base] using hinv.2
    cases h2 : init_scene env r1 with
    | error ra =>
      have hinv2 := init_scene_vinv env r1 hv1
      rw [h2, hf1] at hinv2
      simp only [trOf] at hinv2
      obtain ⟨hcl, hlg⟩ := countP_split_forbidden hinv2.2
      simp only [main_run, h1, h2]
      exact ⟨hinv2.1, hcl, hlg, rfl⟩
    | ok r2 =>
      have hinv2 := init_scene_vinv env r1 hv1
      rw [h2, hf1] at hinv2
      simp only [trOf] at hinv2
      obtain ⟨hcl2, hlg2⟩ := countP_split_forbidden hinv2.2
      simp only [main_run, h1, h2]
      refine ⟨?_, ?_, ?_, loopRun_not_exited env fuel 0 env.tv_last_init _⟩
      · rw [loopRun_st]
        simpa [emit] using hinv2.1
      · rw [loopRun_countP env isCleanupCall
          (by intro k tvl st; simp [iterCalls, List.countP_cons, isCleanupCall])]
        simp [emit, List.countP_append, List.countP_cons, isCleanupCall, hcl2]
      · rw [loopRun_countP env isLogCall
          (by intro k tvl st; simp [iterCalls, List.countP_cons, isLogCall])]
        simp [emit, List.countP_append, List.countP_cons, isLogCall, hlg2]

/-- C1 (counterexample): the claim that EVERY bootstrap and scene-setup step
    aborts on a sentinel failure before the next step runs is false: when
    glGetAttribLocation returns the -1 failure sentinel, no assertion fires;
    the program proceeds through the remaining setup steps and into the
    frame loop (the trace contains the subsequent buffer-generation and the
    first draw call, and the run is not aborted). -/
theorem C1_counterexample :
    envAttrFail.getAttribLocation_ret = -1 ∧
    MainResult.isAborted (main_run envAttrFail 1) = false ∧
    Call.glGenBuffers ∈ (main_run envAttrFail 1).runOf.trace ∧
    Call.glDrawArrays GL_TRIANGLES 0 3 ∈ (main_run envAttrFail 1).runOf.trace :=
  ⟨rfl, by decide, by decide, by decide⟩

/-- C1 (amended): each step the code pairs with an assertion or a check()
    aborts on an injected failure before the following step runs — shown
    for the eight asserted bootstrap steps and for a shader-compile and a
    program-link error caught at the next check(); but an error raised by
    the final buffer upload (which no check follows) is detected only at
    the check after the first frame's swap, after viewport, clear, draw and
    swap have already executed. -/
theorem C1_checked_steps_abort :
    (MainResult.isAborted (main_run envNoDisplay 2) = true ∧
      Call.eglInitialize ∉ (main_run envNoDisplay 2).runOf.trace) ∧
    (MainResult.isAborted (main_run envNoInitEgl 2) = true ∧
      Call.eglChooseConfig ∉ (main_run envNoInitEgl 2).runOf.trace) ∧
    (MainResult.isAborted (main_run envNoChoose 2) = true ∧
      Call.eglBindAPI ∉ (main_run envNoChoose 2).runOf.trace) ∧
    (MainResult.isAborted (main_run envNoBind 2) = true ∧
      Call.eglCreateContext ∉ (main_run envNoBind 2).runOf.trace) ∧
    (MainResult.isAborted (main_run envNoContext 2) = true ∧
      Call.graphicsGetDisplaySize ∉ (main_run envNoContext 2).runOf.trace) ∧
    (MainResult.isAborted (main_run envNoDispSize 2) = true ∧
      Call.dispmanxDisplayOpen ∉ (main_run envNoDispSize 2).runOf.trace) ∧
    (MainResult.isAborted (main_run envNoSurface 2) = true ∧
      Call.eglMakeCurrent ∉ (main_run envNoSurface 2).runOf.trace) ∧
    (MainResult.isAborted (main_run envNoMakeCurrent 2) = true ∧
      Call.glClearColor 0 0 0 1 ∉ (main_run envNoMakeCurrent 2).runOf.trace) ∧
    (MainResult.isAborted (main_run envCompileErr 2) = true ∧
      Call.glCreateShader GL_FRAGMENT_SHADER ∉ (main_run envCompileErr 2).runOf.trace) ∧
    (MainResult.isAborted (main_run envLinkErr 2) = true ∧
      Call.glDeleteShader 10 ∉ (main_run envLinkErr 2).runOf.trace) ∧
    (MainResult.isAborted (main_run envBufferErr 2) = true ∧
      Call.glViewport 0 0 1920 1080 ∈ (main_run envBufferErr 2).runOf.trace ∧
      Call.glDrawArrays GL_TRIANGLES 0 3 ∈ (main_run envBufferErr 2).runOf.trace ∧
      Call.eglSwapBuffers ∈ (main_run envBufferErr 2).runOf.trace) :=
  ⟨⟨by decide, by decide⟩, ⟨by decide, by decide⟩, ⟨by decide, by decide⟩,
   ⟨by decide, by decide⟩, ⟨by decide, by decide⟩, ⟨by decide, by decide⟩,
   ⟨by decide, by decide⟩, ⟨by decide, by decide⟩, ⟨by decide, by decide⟩,
   ⟨by decide, by decide⟩, ⟨by decide, by decide, by decide, by decide⟩⟩

/-- C2: for t0 = (10 s, 500000 us) and t1 = (11 s, 100000 us) the elapsed
    value of main() line 313 is exactly 600000 microseconds, and a run of
    the frame loop against a clock reading t1 with previous timestamp t0
    passes exactly 600000 to render (which prints it). -/
theorem C2_elapsed_600000 :
    elapsedMicros { sec := 11, usec := 100000 } { sec := 10, usec := 500000 } = 600000 ∧
    envGood.time 0 = { sec := 11, usec := 100000 } ∧
    envGood.tv_last_init = { sec := 10, usec := 500000 } ∧
    Call.printfDelta 600000 ∈ (main_run envGood 1).runOf.trace :=
  ⟨by decide, rfl, rfl, by decide⟩

/-- C3: a successful init_scene issues exactly one glBufferData, targeting
    GL_ARRAY_BUFFER with usage GL_STATIC_DRAW and carrying exactly the nine
    floats (-1,-1,0),(1,-1,0),(0,1,0) in literal order; the frame loop never
    issues another upload, so the buffer is never modified afterwards. -/
theorem C3_vertex_buffer (env : Env) (r r1 : Run) (hv : r.st.verbose = 0)
    (hok : init_scene env r = Except.ok r1) :
    triangle_vertex_data = [-1, -1, 0, 1, -1, 0, 0, 1, 0] ∧
    triangle_vertex_data.length = 9 ∧
    r1.trace = r.trace ++ initSceneCalls env ∧
    List.filter isBufferDataCall (initSceneCalls env) =
      [Call.glBufferData GL_ARRAY_BUFFER triangle_vertex_data GL_STATIC_DRAW] ∧
    (∀ k tvl st, List.countP isBufferDataCall (iterCalls env k tvl st) = 0) := by
  refine ⟨rfl, rfl, (init_scene_ok env r r1 hv hok).1, ?_, ?_⟩
  · simp [initSceneCalls, isBufferDataCall, List.filter]
  · intro k tvl st
    simp [iterCalls, isBufferDataCall, List.countP_cons]

/-- C3 witness: the success path evaluated at the concrete healthy
    environment from the zeroed start state. -/
theorem C3_vertex_buffer_witness :
    (trOf (init_scene envGood r0base)).trace = r0base.trace ++ initSceneCalls envGood :=
  (C3_vertex_buffer envGood r0base (trOf (init_scene envGood r0base)) rfl rfl).2.2.1

/-- C4: one loop iteration appends exactly the iteration call list to the
    trace (whether or not the trailing check aborts), and among those calls
    the clear, draw and swap events are exactly one clear of the color
    buffer, then one draw of 3 vertices as triangles, then one swap, in
    that order and nothing else. -/
theorem C4_frame_sequence (env : Env) (k : Nat) (tvl : Timeval) (r : Run) :
    iterRunOf (loopIter env k tvl r) =
      { r with trace := r.trace ++ iterCalls env k tvl r.st, err := 0 } ∧
    List.filter isFrameMark (iterCalls env k tvl r.st) =
      [Call.glClear GL_COLOR_BUFFER_BIT, Call.glDrawArrays GL_TRIANGLES 0 3,
       Call.eglSwapBuffers] :=
  ⟨loopIter_runOf env k tvl r, by simp [iterCalls, isFrameMark, List.filter]⟩

/-- C5: on any environment and any unrolling depth, main never reaches the
    return-0 path after the loop, and the cleanup calls glDeleteProgram and
    glDeleteBuffers never appear in the trace: the loop never exits. -/
theorem C5_loop_never_exits (env : Env) (fuel : Nat) :
    MainResult.isExited (main_run env fuel) = false ∧
    List.countP isCleanupCall (main_run env fuel).runOf.trace = 0 :=
  ⟨(main_run_inv env fuel).2.2.2, (main_run_inv env fuel).2.1⟩

/-- C6: on any environment and any unrolling depth, the verbose flag of the
    state record is still 0 at the end of the run (it is zero-initialized
    and no path ever sets it), and consequently no shader or program log is
    ever printed. -/
theorem C6_verbose_never_set (env : Env) (fuel : Nat) :
    (main_run env fuel).runOf.st.verbose = 0 ∧
    List.countP isLogCall (main_run env fuel).runOf.trace = 0 :=
  ⟨(main_run_inv env fuel).1, (main_run_inv env fuel).2.2.1⟩

/-- C7: in a successful init_scene the lifecycle-relevant calls occur in
    the exact order link, delete vertex shader, delete fragment shader,
    attribute lookup — the two shader deletions happen right after linking
    and before the attribute location is resolved; the location is looked
    up exactly once (a single lookup call in the scene trace, none in any
    loop iteration) and the stored value is never reassigned afterwards
    (no step after init_scene modifies the state record). -/
theorem C7_shader_lifecycle (env : Env) (r r1 : Run) (hv : r.st.verbose = 0)
    (hok : init_scene env r = Except.ok r1) :
    r1.trace = r.trace ++ initSceneCalls env ∧
    List.filter isLifecycleMark (initSceneCalls env) =
      [Call.glLinkProgram env.createProgram_ret,
       Call.glDeleteShader env.createShader_v_ret,
       Call.glDeleteShader env.createShader_f_ret,
       Call.glGetAttribLocation env.createProgram_ret] ∧
    r1.st.attr_vertex = (env.getAttribLocation_ret % (4294967296 : Int)).toNat ∧
    (∀ k tvl st, List.countP isAttribLookup (iterCalls env k tvl st) = 0) ∧
    (∀ fuel k tvl rr, (loopRun env k fuel tvl rr).runOf.st = rr.st) ∧
    (∀ env2 c rr, (emit env2 c rr).st = rr.st) := by
  obtain ⟨ht, hst⟩ := init_scene_ok env r r1 hv hok
  refine ⟨ht, ?_, ?_, ?_, ?_, ?_⟩
  · simp [initSceneCalls, isLifecycleMark, List.filter]
  · rw [hst]
  · intro k tvl st
    simp [iterCalls, isAttribLookup, List.countP_cons]
  · intro fuel k tvl rr
    exact loopRun_st env fuel k tvl rr
  · intro env2 c rr
    rfl

/-- C7 witness: the lifecycle facts evaluated at the concrete healthy
    environment from the zeroed start state. -/
theorem C7_shader_lifecycle_witness :
    (trOf (init_scene envGood r0base)).st.attr_vertex =
      (envGood.getAttribLocation_ret % (4294967296 : Int)).toNat :=
  (C7_shader_lifecycle envGood r0base (trOf (init_scene envGood r0base)) rfl rfl).2.2.1

/-- C8: the frame loop is pure with respect to the state record and the
    resource population: however many iterations run, the state record is
    unchanged and not a single resource-creating or resource-destroying
    call is added to the trace. -/
theorem C8_loop_touches_no_state (env : Env) (fuel k : Nat) (tvl : Timeval) (r : Run) :
    (loopRun env k fuel tvl r).runOf.st = r.st ∧
    List.countP isResourceOp (loopRun env k fuel tvl r).runOf.trace =
      List.countP isResourceOp r.trace :=
  ⟨loopRun_st env fuel k tvl r,
   loopRun_countP env isResourceOp
     (by intro k2 tvl2 st; simp [iterCalls, isResourceOp, List.countP_cons])
     fuel k tvl r⟩

/-- C9: the delta of the first loop iteration is elapsedMicros of the first
    clock reading and the initial contents of tv_last — a stack variable
    main() never initializes; two runs differing only in that garbage print
    different first deltas under an identical wall clock, so the first
    printed value is indeterminate. -/
theorem C9_first_delta_uninitialized :
    (∀ env k tvl st, (iterCalls env k tvl st)[1]? =
        some (Call.printfDelta (elapsedMicros (env.time k) tvl))) ∧
    envGarbage.time = envGood.time ∧
    envGarbage.errOf = envGood.errOf ∧
    Call.printfDelta 11100000 ∈ (main_run envGarbage 1).runOf.trace ∧
    Call.printfDelta 600000 ∈ (main_run envGood 1).runOf.trace ∧
    (11100000 : Int) ≠ 600000 :=
  ⟨fun env k tvl st => rfl, rfl, rfl, by decide, by decide, by decide⟩

/-- C10: the signed attribute-lookup result is stored into the unsigned
    attr_vertex field reduced modulo 2^32; a -1 failure sentinel therefore
    wraps to 4294967295, and in a run where the lookup fails the program
    does not abort and passes 4294967295 unchecked to the per-frame
    glVertexAttribPointer and glEnableVertexAttribArray calls. -/
theorem C10_attr_unsigned_wrap (env : Env) (r r1 : Run) (hv : r.st.verbose = 0)
    (hok : init_scene env r = Except.ok r1) :
    r1.st.attr_vertex = (env.getAttribLocation_ret % (4294967296 : Int)).toNat ∧
    ((-1 : Int) % (4294967296 : Int)).toNat = 4294967295 ∧
    MainResult.isAborted (main_run envAttrFail 1) = false ∧
    Call.glVertexAttribPointer 4294967295 3 GL_FLOAT 0 12 ∈
      (main_run envAttrFail 1).runOf.trace ∧
    Call.glEnableVertexAttribArray 4294967295 ∈ (main_run envAttrFail 1).runOf.trace := by
  refine ⟨?_, by decide, by decide, by decide, by decide⟩
  rw [(init_scene_ok env r r1 hv hok).2]

/-- C10 witness: the wrap evaluated at the concrete environment whose
    lookup returns -1, from the zeroed start state. -/
theorem C10_attr_unsigned_wrap_witness :
    (trOf (init_scene envAttrFail r0base)).st.attr_vertex =
      (envAttrFail.getAttribLocation_ret % (4294967296 : Int)).toNat :=
  (C10_attr_unsigned_wrap envAttrFail r0base (trOf (init_scene envAttrFail r0base)) rfl rfl).1

end Triangle
